import Mathlib

/-!
# Flatisfy `flatisfy/config.py` — a shallow embedding

This file embeds the configuration module of Flatisfy (`flatisfy/config.py`)
in Lean 4 and proves properties of it.

Modelling conventions:
* Python / JSON values are the inductive type `PyVal`.  Numbers are modelled
  as integers (`Int`); Python `bool` is a separate constructor but, as in
  Python, counts as a number for `isinstance(x, (float, int))` and compares
  numerically.  Dictionaries are association lists with string keys (JSON
  object keys are strings); lookup finds the first matching key and update
  replaces in place, so key order behaves like an insertion-ordered dict.
* The module is written for the Python 2 flavour it runs under (it imports
  from `__future__` and `builtins`, and line 98 mentions `unicode`), so
  `isinstance(x, (str, unicode))` is modelled as "is a string".
* Exceptions are explicit: operations that can raise run in
  `Except VErr`.  `validate_config` catches `AssertionError` and `KeyError`
  (constructor `VErr.fail`, carrying the location of the failing line, as
  `traceback.extract_tb(exc_traceback)[-1][-1]` returns the source text of
  that line); every other exception (`TypeError`, `AttributeError`, ...)
  propagates (`VErr.uncaught`).
* File I/O in `load_config` is abstracted by its outcome: an
  `Except Unit (List (String × PyVal))` standing for the result of
  `open` + `json.load` on the configured path (`.error ()` is an
  `IOError`/`ValueError`: missing, unreadable or malformed file), and the
  `appdirs.user_data_dir` fallback is a string parameter `xdg`.
-/

set_option autoImplicit false

namespace Flatisfy

/-- A Python/JSON value as `config.py` manipulates them.  Numbers are
integers; dictionaries are insertion-ordered association lists with string
keys (what `json.load` produces for a JSON object). -/
inductive PyVal : Type where
  | none : PyVal
  | bool : Bool → PyVal
  | int : Int → PyVal
  | str : String → PyVal
  | list : List PyVal → PyVal
  | dict : List (String × PyVal) → PyVal

/-- A Python dictionary with string keys (e.g. `config_data`). -/
abbrev ConfigDict := List (String × PyVal)

/-- Python exceptions that `validate_config`'s `except` clause does NOT
catch and which therefore propagate out of `config.py`'s functions. -/
inductive PyExc : Type where
  | typeError : PyExc
  | attributeError : PyExc
  | indexError : PyExc
  | keyError : PyExc
deriving DecidableEq

/-- The source location of a failing check: one constructor per line of
`config.py` at which an `AssertionError` or `KeyError` can be raised inside
the `try` block of `validate_config` (or inside
`_check_constraints_bounds`).  `traceback.extract_tb(...)[-1][-1]` returns
the text of that line, modelled by `FailLoc.text`. -/
inductive FailLoc : Type where
  | line79 : FailLoc
  | line80 : FailLoc
  | line88 : FailLoc
  | line89 : FailLoc
  | line97 : FailLoc
  | line98 : FailLoc
  | line99 : FailLoc
  | line102 : FailLoc
  | line103 : FailLoc
  | line104 : FailLoc
  | line105 : FailLoc
  | line108 : FailLoc
  | line109 : FailLoc
  | line111 : FailLoc
  | line112 : FailLoc
  | line114 : FailLoc
  | line115 : FailLoc
  | line117 : FailLoc
  | line118 : FailLoc
  | line120 : FailLoc
  | line121 : FailLoc
  | line123 : FailLoc
  | line124 : FailLoc
  | line125 : FailLoc
  | line126 : FailLoc
  | line127 : FailLoc
  | line128 : FailLoc
  | line129 : FailLoc
  | line130 : FailLoc
  | line131 : FailLoc
  | line133 : FailLoc
  | line134 : FailLoc
  | line136 : FailLoc
  | line137 : FailLoc
  | line138 : FailLoc
  | line140 : FailLoc
  | line142 : FailLoc
  | line143 : FailLoc
  | line144 : FailLoc
  | line145 : FailLoc
deriving DecidableEq

/-- The source text of the line a `FailLoc` stands for (what
`traceback.extract_tb(exc_traceback)[-1][-1]` yields; for an assert spanning
several source lines the statement's text is given condensed on one line). -/
def FailLoc.text : FailLoc → String
  | .line79 => "assert len(bounds) == 2"
  | .line80 => "assert all(x is None or (isinstance(x, (float, int)) and x >= 0) for x in bounds)"
  | .line88 => "if bounds[0] is not None and bounds[1] is not None:"
  | .line89 => "assert bounds[1] > bounds[0]"
  | .line97 => "assert \"type\" in config[\"constraints\"]"
  | .line98 => "assert isinstance(config[\"constraints\"][\"type\"], (str, unicode))"
  | .line99 => "assert config[\"constraints\"][\"type\"].upper() in [\"RENT\", \"SALE\", \"SHARING\"]"
  | .line102 => "assert \"house_types\" in config[\"constraints\"]"
  | .line103 => "assert config[\"constraints\"][\"house_types\"]"
  | .line104 => "for house_type in config[\"constraints\"][\"house_types\"]:"
  | .line105 => "assert house_type.upper() in [\"APART\", \"HOUSE\", \"PARKING\", \"LAND\", \"OTHER\", \"UNKNOWN\"]"
  | .line108 => "assert \"postal_codes\" in config[\"constraints\"]"
  | .line109 => "assert config[\"constraints\"][\"postal_codes\"]"
  | .line111 => "assert \"area\" in config[\"constraints\"]"
  | .line112 => "_check_constraints_bounds(config[\"constraints\"][\"area\"])"
  | .line114 => "assert \"cost\" in config[\"constraints\"]"
  | .line115 => "_check_constraints_bounds(config[\"constraints\"][\"cost\"])"
  | .line117 => "assert \"rooms\" in config[\"constraints\"]"
  | .line118 => "_check_constraints_bounds(config[\"constraints\"][\"rooms\"])"
  | .line120 => "assert \"bedrooms\" in config[\"constraints\"]"
  | .line121 => "_check_constraints_bounds(config[\"constraints\"][\"bedrooms\"])"
  | .line123 => "assert \"time_to\" in config[\"constraints\"]"
  | .line124 => "assert isinstance(config[\"constraints\"][\"time_to\"], dict)"
  | .line125 => "for name, item in config[\"constraints\"][\"time_to\"].items():"
  | .line126 => "assert isinstance(name, str)"
  | .line127 => "assert \"gps\" in item"
  | .line128 => "assert isinstance(item[\"gps\"], list)"
  | .line129 => "assert len(item[\"gps\"]) == 2"
  | .line130 => "assert \"time\" in item"
  | .line131 => "_check_constraints_bounds(item[\"time\"])"
  | .line133 => "assert config[\"passes\"] in [0, 1, 2, 3]"
  | .line134 => "assert config[\"max_entries\"] is None or (isinstance(config[\"max_entries\"], int) and config[\"max_entries\"] > 0)"
  | .line136 => "assert config[\"data_directory\"] is None or isinstance(config[\"data_directory\"], str)"
  | .line137 => "assert isinstance(config[\"search_index\"], str)"
  | .line138 => "assert config[\"modules_path\"] is None or isinstance(config[\"modules_path\"], str)"
  | .line140 => "assert config[\"database\"] is None or isinstance(config[\"database\"], str)"
  | .line142 => "assert isinstance(config[\"port\"], int)"
  | .line143 => "assert isinstance(config[\"host\"], str)"
  | .line144 => "assert config[\"webserver\"] is None or isinstance(config[\"webserver\"], str)"
  | .line145 => "assert config[\"backends\"] is None or isinstance(config[\"backends\"], list)"

/-- What the `try` block of `validate_config` can be stopped by: a caught
`AssertionError`/`KeyError` at a given line (`fail`), or an exception its
`except (AssertionError, KeyError)` clause does not catch (`uncaught`). -/
inductive VErr : Type where
  | fail : FailLoc → VErr
  | uncaught : PyExc → VErr
deriving DecidableEq

/-! ## Python primitive operations -/

/-- `s.startswith(p)` over the characters (structural, so it computes by
`rfl`/`decide`). -/
def strStartsWith (s p : String) : Bool :=
  s.data.take p.data.length == p.data

/-- `s.endswith(p)` over the characters. -/
def strEndsWith (s p : String) : Bool :=
  s.data.reverse.take p.data.length == p.data.reverse

/-- `p in s` for strings: `p` occurs as a contiguous substring of `s`
(the empty string occurs in every string, as in Python). -/
def strContainsSub (s p : String) : Bool :=
  (List.range (s.data.length + 1)).any fun i =>
    (s.data.drop i).take p.data.length == p.data

/-- First-match lookup in a Python dict. -/
def dictLookup : ConfigDict → String → Option PyVal
  | [], _ => Option.none
  | (k, v) :: rest, key => if k = key then some v else dictLookup rest key

/-- `d[key] = v`: replace the first binding of `key`, or append it. -/
def dictSet : ConfigDict → String → PyVal → ConfigDict
  | [], key, v => [(key, v)]
  | (k, w) :: rest, key, v =>
    if k = key then (key, v) :: rest else (k, w) :: dictSet rest key v

/-- `d.update(ov)`: write every binding of `ov` into `d`, in order. -/
def dictUpdate (d : ConfigDict) (ov : List (String × PyVal)) : ConfigDict :=
  ov.foldl (fun acc p => dictSet acc p.1 p.2) d

/-- Python truthiness (`bool(v)`). -/
def truthy : PyVal → Bool
  | .none => false
  | .bool b => b
  | .int n => n != 0
  | .str s => s != ""
  | .list xs => !xs.isEmpty
  | .dict d => !d.isEmpty

/-- `v is None`. -/
def isNone : PyVal → Bool
  | .none => true
  | _ => false

/-- `isinstance(v, (str, unicode))` / `isinstance(v, str)`. -/
def isStr : PyVal → Bool
  | .str _ => true
  | _ => false

/-- `isinstance(v, list)`. -/
def isList : PyVal → Bool
  | .list _ => true
  | _ => false

/-- `isinstance(v, dict)`. -/
def isDict : PyVal → Bool
  | .dict _ => true
  | _ => false

/-- `isinstance(v, int)`: in Python, `bool` is a subclass of `int`. -/
def isInstInt : PyVal → Bool
  | .int _ => true
  | .bool _ => true
  | _ => false

/-- The numeric value of a Python number, if `v` is one
(`isinstance(v, (float, int))`; `True` counts as `1`, `False` as `0`). -/
def pyNum : PyVal → Option Int
  | .int n => some n
  | .bool b => some (cond b 1 0)
  | _ => Option.none

/-- `x is None or (isinstance(x, (float, int)) and x >= 0)` — the predicate
of the `all(...)` on line 80. -/
def noneOrNonNegNum (x : PyVal) : Bool :=
  isNone x || (match pyNum x with
    | some n => decide (0 ≤ n)
    | Option.none => false)

/-- `b > a` between two Python numbers (only ever reached on numbers in the
source: line 89 runs after line 80's `all` established both operands are
numbers). -/
def pyGt (b a : PyVal) : Bool :=
  match pyNum b, pyNum a with
  | some x, some y => decide (y < x)
  | _, _ => false

/-- `v in ns` for a list literal of ints (line 133): Python `==` compares
`bool`/`int` numerically and any non-number is unequal to an int. -/
def pyInIntList (v : PyVal) (ns : List Int) : Bool :=
  match pyNum v with
  | some n => ns.contains n
  | Option.none => false

/-- `assert cond` inside the `try` block: a failure raises `AssertionError`,
caught and converted to the failing line's location. -/
def pyAssert (cond : Bool) (l : FailLoc) : Except VErr Unit :=
  if cond then .ok () else .error (.fail l)

/-- `v[key]` at a given line: on a dict, a missing key raises `KeyError`
(caught, so reported as that line's location); on any non-dict value a
string subscript raises `TypeError`, which is not caught. -/
def subAt (l : FailLoc) (v : PyVal) (key : String) : Except VErr PyVal :=
  match v with
  | .dict d =>
    match dictLookup d key with
    | some x => .ok x
    | Option.none => .error (.fail l)
  | _ => .error (.uncaught .typeError)

/-- `key in v`: key membership on a dict, element membership on a list,
substring test on a string; `TypeError` (uncaught) otherwise. -/
def containsKey (v : PyVal) (key : String) : Except VErr Bool :=
  match v with
  | .dict d => .ok (d.any fun p => p.1 == key)
  | .list xs => .ok (xs.any fun x => match x with
      | .str s => s == key
      | _ => false)
  | .str t => .ok (strContainsSub t key)
  | _ => .error (.uncaught .typeError)

/-- `s.upper()` on a string, character by character (ASCII case mapping,
which covers every string the source compares against). -/
def pyToUpper (s : String) : String :=
  String.mk (s.data.map Char.toUpper)

/-- `v.upper()`: `AttributeError` (uncaught) unless `v` is a string. -/
def upperAt (v : PyVal) : Except VErr String :=
  match v with
  | .str s => .ok (pyToUpper s)
  | _ => .error (.uncaught .attributeError)

/-- `len(v)`: defined on lists, strings and dicts; `TypeError` (uncaught)
otherwise. -/
def lenAt : PyVal → Except VErr Nat
  | .list xs => .ok xs.length
  | .str s => .ok s.length
  | .dict d => .ok d.length
  | _ => .error (.uncaught .typeError)

/-- `for x in v`: the sequence iterated over — a list's elements, a string's
characters, a dict's keys; `TypeError` (uncaught) otherwise. -/
def iterAt (v : PyVal) : Except VErr (List PyVal) :=
  match v with
  | .list xs => .ok xs
  | .str s => .ok (s.data.map fun c => .str (String.mk [c]))
  | .dict d => .ok (d.map fun p => .str p.1)
  | _ => .error (.uncaught .typeError)

/-- `v.items()`: `AttributeError` (uncaught) unless `v` is a dict. -/
def itemsAt (v : PyVal) : Except VErr (List (String × PyVal)) :=
  match v with
  | .dict d => .ok d
  | _ => .error (.uncaught .attributeError)

/-- `v[i]` with an integer literal index (lines 88-89): element of a list,
character of a string; on a dict an int key is absent from a string-keyed
dict, so `KeyError` (caught at that line); `TypeError` otherwise. -/
def indexAt (l : FailLoc) (v : PyVal) (i : Nat) : Except VErr PyVal :=
  match v with
  | .list xs =>
    match xs.get? i with
    | some x => .ok x
    | Option.none => .error (.uncaught .indexError)
  | .str s =>
    match s.data.get? i with
    | some c => .ok (.str (String.mk [c]))
    | Option.none => .error (.uncaught .indexError)
  | .dict _ => .error (.fail l)
  | _ => .error (.uncaught .typeError)

/-! ## `validate_config` (config.py lines 68-150)

The body of `validate_config` is a straight-line sequence of checks inside
one `try` block; the first to raise `AssertionError` or `KeyError` decides
the returned location, any other exception propagates.  Each group of
source lines is one function below, and `checkList` strings them together
in source order. -/

/-- `_check_constraints_bounds` (lines 75-89): bounds for a numeric
constraint — length 2, each element absent or a non-negative number, and
`bounds[1] > bounds[0]` when both are present. -/
def _check_constraints_bounds (bounds : PyVal) : Except VErr Unit := do
  let n ← lenAt bounds
  pyAssert (n == 2) .line79
  let xs ← iterAt bounds
  pyAssert (xs.all noneOrNonNegNum) .line80
  let b0 ← indexAt .line88 bounds 0
  let b1 ← indexAt .line88 bounds 1
  if !isNone b0 && !isNone b1 then
    pyAssert (pyGt b1 b0) .line89
  else
    pure ()

/-- Lines 97-100: `constraints["type"]` exists, is a string, and uppercases
to RENT, SALE or SHARING. -/
def chkType (c : PyVal) : Except VErr Unit := do
  let k1 ← subAt .line97 c "constraints"
  let m ← containsKey k1 "type"
  pyAssert m .line97
  let k2 ← subAt .line98 c "constraints"
  let t ← subAt .line98 k2 "type"
  pyAssert (isStr t) .line98
  let k3 ← subAt .line99 c "constraints"
  let t2 ← subAt .line99 k3 "type"
  let u ← upperAt t2
  pyAssert (u == "RENT" || u == "SALE" || u == "SHARING") .line99

/-- The body of the loop on lines 104-106, one iteration per house type. -/
def forHouseTypes : List PyVal → Except VErr Unit
  | [] => .ok ()
  | ht :: rest => do
    let u ← upperAt ht
    pyAssert (u == "APART" || u == "HOUSE" || u == "PARKING" || u == "LAND"
      || u == "OTHER" || u == "UNKNOWN") .line105
    forHouseTypes rest

/-- Lines 102-106: `constraints["house_types"]` exists, is truthy, and each
element uppercases to a known house type. -/
def chkHouseTypes (c : PyVal) : Except VErr Unit := do
  let k1 ← subAt .line102 c "constraints"
  let m ← containsKey k1 "house_types"
  pyAssert m .line102
  let k2 ← subAt .line103 c "constraints"
  let h ← subAt .line103 k2 "house_types"
  pyAssert (truthy h) .line103
  let k3 ← subAt .line104 c "constraints"
  let h2 ← subAt .line104 k3 "house_types"
  let items ← iterAt h2
  forHouseTypes items

/-- Lines 108-109: `constraints["postal_codes"]` exists and is truthy. -/
def chkPostalCodes (c : PyVal) : Except VErr Unit := do
  let k1 ← subAt .line108 c "constraints"
  let m ← containsKey k1 "postal_codes"
  pyAssert m .line108
  let k2 ← subAt .line109 c "constraints"
  let p ← subAt .line109 k2 "postal_codes"
  pyAssert (truthy p) .line109

/-- One bound field (lines 111-121, four instances): the key exists in
`constraints` (assert at `lin`), then `_check_constraints_bounds` is called
on its value (subscripts at line `lcall`). -/
def chkBoundsField (lin lcall : FailLoc) (key : String) (c : PyVal) :
    Except VErr Unit := do
  let k1 ← subAt lin c "constraints"
  let m ← containsKey k1 key
  pyAssert m lin
  let k2 ← subAt lcall c "constraints"
  let b ← subAt lcall k2 key
  _check_constraints_bounds b

/-- The body of the loop on lines 125-131, one iteration per `time_to`
entry (dict iteration yields the entries in insertion order). -/
def forTimeTo : List (String × PyVal) → Except VErr Unit
  | [] => .ok ()
  | (name, item) :: rest => do
    pyAssert (isStr (.str name)) .line126
    let g ← containsKey item "gps"
    pyAssert g .line127
    let gps ← subAt .line128 item "gps"
    pyAssert (isList gps) .line128
    let gps2 ← subAt .line129 item "gps"
    let n ← lenAt gps2
    pyAssert (n == 2) .line129
    let tm ← containsKey item "time"
    pyAssert tm .line130
    let tv ← subAt .line131 item "time"
    _check_constraints_bounds tv
    forTimeTo rest

/-- Lines 123-131: `constraints["time_to"]` exists, is a dict, and each of
its entries has a two-element `gps` list and valid `time` bounds. -/
def chkTimeTo (c : PyVal) : Except VErr Unit := do
  let k1 ← subAt .line123 c "constraints"
  let m ← containsKey k1 "time_to"
  pyAssert m .line123
  let k2 ← subAt .line124 c "constraints"
  let t ← subAt .line124 k2 "time_to"
  pyAssert (isDict t) .line124
  let k3 ← subAt .line125 c "constraints"
  let t2 ← subAt .line125 k3 "time_to"
  let entries ← itemsAt t2
  forTimeTo entries

/-- Line 133: `config["passes"] in [0, 1, 2, 3]`. -/
def chkPasses (c : PyVal) : Except VErr Unit := do
  let p ← subAt .line133 c "passes"
  pyAssert (pyInIntList p [0, 1, 2, 3]) .line133

/-- Line 134: `max_entries` is `None` or a positive int. -/
def chkMaxEntries (c : PyVal) : Except VErr Unit := do
  let v ← subAt .line134 c "max_entries"
  pyAssert (isNone v || (isInstInt v && (match pyNum v with
    | some n => decide (0 < n)
    | Option.none => false))) .line134

/-- Line 136: `data_directory` is `None` or a string. -/
def chkDataDirectory (c : PyVal) : Except VErr Unit := do
  let v ← subAt .line136 c "data_directory"
  pyAssert (isNone v || isStr v) .line136

/-- Line 137: `search_index` is a string. -/
def chkSearchIndex (c : PyVal) : Except VErr Unit := do
  let v ← subAt .line137 c "search_index"
  pyAssert (isStr v) .line137

/-- Line 138: `modules_path` is `None` or a string. -/
def chkModulesPath (c : PyVal) : Except VErr Unit := do
  let v ← subAt .line138 c "modules_path"
  pyAssert (isNone v || isStr v) .line138

/-- Line 140: `database` is `None` or a string. -/
def chkDatabase (c : PyVal) : Except VErr Unit := do
  let v ← subAt .line140 c "database"
  pyAssert (isNone v || isStr v) .line140

/-- Line 142: `port` is an int (`bool` is a subclass of `int`). -/
def chkPort (c : PyVal) : Except VErr Unit := do
  let v ← subAt .line142 c "port"
  pyAssert (isInstInt v) .line142

/-- Line 143: `host` is a string. -/
def chkHost (c : PyVal) : Except VErr Unit := do
  let v ← subAt .line143 c "host"
  pyAssert (isStr v) .line143

/-- Line 144: `webserver` is `None` or a string. -/
def chkWebserver (c : PyVal) : Except VErr Unit := do
  let v ← subAt .line144 c "webserver"
  pyAssert (isNone v || isStr v) .line144

/-- Line 145: `backends` is `None` or a list. -/
def chkBackends (c : PyVal) : Except VErr Unit := do
  let v ← subAt .line145 c "backends"
  pyAssert (isNone v || isList v) .line145

/-- The checks of `validate_config`'s `try` block, in source order. -/
def checkList : List (PyVal → Except VErr Unit) :=
  [chkType, chkHouseTypes, chkPostalCodes,
   chkBoundsField .line111 .line112 "area",
   chkBoundsField .line114 .line115 "cost",
   chkBoundsField .line117 .line118 "rooms",
   chkBoundsField .line120 .line121 "bedrooms",
   chkTimeTo, chkPasses, chkMaxEntries, chkDataDirectory, chkSearchIndex,
   chkModulesPath, chkDatabase, chkPort, chkHost, chkWebserver, chkBackends]

/-- Run checks in order, stopping at the first that raises. -/
def runChecks : List (PyVal → Except VErr Unit) → PyVal → Except VErr Unit
  | [], _ => .ok ()
  | chk :: rest, v =>
    match chk v with
    | .ok _ => runChecks rest v
    | .error e => .error e

/-- `validate_config` (lines 68-150).  Returns `True` when every check
passes; a caught `AssertionError`/`KeyError` yields the failing line's text
(a string, not `False`); any other exception propagates to the caller. -/
def validate_config (config : PyVal) : Except PyExc PyVal :=
  match runChecks checkList config with
  | .ok _ => .ok (.bool true)
  | .error (.fail l) => .ok (.str l.text)
  | .error (.uncaught e) => .error e

/-- `DEFAULT_CONFIG` (lines 23-63), with the same keys in the same order. -/
def DEFAULT_CONFIG : ConfigDict :=
  [("constraints", .dict
      [("type", .none),
       ("house_types", .list []),
       ("postal_codes", .list []),
       ("area", .list [.none, .none]),
       ("cost", .list [.none, .none]),
       ("rooms", .list [.none, .none]),
       ("bedrooms", .list [.none, .none]),
       ("time_to", .dict [])]),
   ("navitia_api_key", .none),
   ("passes", .int 3),
   ("max_entries", .none),
   ("data_directory", .none),
   ("modules_path", .none),
   ("database", .none),
   ("search_index", .none),
   ("port", .int 8080),
   ("host", .str "127.0.0.1"),
   ("webserver", .none),
   ("backends", .none)]

/-! ## `load_config` (config.py lines 153-226) -/

/-- The argparse namespace fields `load_config` reads (each is `None` when
the option was not given; `getattr(args, ..., None)` makes a missing
attribute `None` too).  `port`, `passes` and `max_entries` are parsed as
ints by argparse, `host`, `data_dir` and `config` as strings. -/
structure Args where
  config : Option String
  passes : Option Int
  max_entries : Option Int
  port : Option Int
  host : Option String
  data_dir : Option String

/-- `os.path.join(a, b)` for two path components (posixpath): `b` wins if
absolute, otherwise the parts are glued with exactly one `/`. -/
def os_path_join (a b : String) : String :=
  if strStartsWith b "/" then b
  else if a == "" || strEndsWith a "/" then a ++ b
  else a ++ "/" ++ b

/-- `config_data[key]` outside any `try` block: a missing key would raise
`KeyError` to the caller. -/
def pyGet (d : ConfigDict) (key : String) : Except PyExc PyVal :=
  match dictLookup d key with
  | some v => .ok v
  | Option.none => .error .keyError

/-- `os.path.join(v, ...)` demands a string first component: on any other
value Python raises (`AttributeError` on its `endswith` lookup). -/
def asStr (v : PyVal) : Except PyExc String :=
  match v with
  | .str s => .ok s
  | _ => .error .attributeError

/-- Lines 164-175: when `args` is truthy and `args.config` is truthy, read
and parse the file; `config_data.update(...)` on success, and on
`IOError`/`ValueError` (missing, unreadable or malformed file) log and keep
`config_data` — the overlay outcome is the `fileRes` parameter, whose `ok`
payload is the parsed top-level JSON object (a config file's top level is a
JSON object; `dict.update` would itself raise on any other shape). -/
def merge_file (args : Option Args) (fileRes : Except Unit (List (String × PyVal)))
    (d : ConfigDict) : ConfigDict :=
  match args with
  | Option.none => d
  | some a =>
    match a.config with
    | Option.none => d
    | some path =>
      if path == "" then d
      else
        match fileRes with
        | .ok ov => dictUpdate d ov
        | .error _ => d

/-- Lines 177-195: overload `passes`, `max_entries`, `port` and `host` from
the CLI arguments, in that order (`host` goes through `str(...)`). -/
def apply_cli (args : Option Args) (d : ConfigDict) : ConfigDict :=
  match args with
  | Option.none => d
  | some a =>
    let d1 := match a.passes with
      | some n => dictSet d "passes" (.int n)
      | Option.none => d
    let d2 := match a.max_entries with
      | some n => dictSet d1 "max_entries" (.int n)
      | Option.none => d1
    let d3 := match a.port with
      | some n => dictSet d2 "port" (.int n)
      | Option.none => d2
    match a.host with
    | some h => dictSet d3 "host" (.str h)
    | Option.none => d3

/-- Lines 201-207 (the `elif` branch): fall back to the `appdirs` location
when `config_data["data_directory"]` is still `None`. -/
def fill_xdg (xdg : String) (d : ConfigDict) : Except PyExc ConfigDict := do
  let v ← pyGet d "data_directory"
  if isNone v then .ok (dictSet d "data_directory" (.str xdg)) else .ok d

/-- Lines 197-207: `data_directory` comes from `args.data_dir` when given,
else from `appdirs.user_data_dir("flatisfy", "flatisfy")` (the `xdg`
parameter) when still `None`. -/
def fill_data_directory (args : Option Args) (xdg : String) (d : ConfigDict) :
    Except PyExc ConfigDict :=
  match args with
  | some a =>
    match a.data_dir with
    | some dd => .ok (dictSet d "data_directory" (.str dd))
    | Option.none => fill_xdg xdg d
  | Option.none => fill_xdg xdg d

/-- Lines 209-213: when `database` is `None`, set it to
`"sqlite:///" + os.path.join(data_directory, "flatisfy.db")`. -/
def derive_database (d : ConfigDict) : Except PyExc ConfigDict := do
  let db ← pyGet d "database"
  if isNone db then do
    let dd ← pyGet d "data_directory"
    let s ← asStr dd
    pure (dictSet d "database"
      (.str ("sqlite:///" ++ os_path_join s "flatisfy.db")))
  else
    pure d

/-- Lines 215-219: when `search_index` is `None`, set it to
`os.path.join(data_directory, "search_index")`. -/
def derive_search_index (d : ConfigDict) : Except PyExc ConfigDict := do
  let si ← pyGet d "search_index"
  if isNone si then do
    let dd ← pyGet d "data_directory"
    let s ← asStr dd
    pure (dictSet d "search_index" (.str (os_path_join s "search_index")))
  else
    pure d

/-- Lines 209-219: derive `database` (an SQLite URI under `data_directory`)
and `search_index` (a path under `data_directory`) when they are `None`. -/
def derive_paths (d : ConfigDict) : Except PyExc ConfigDict :=
  derive_database d >>= derive_search_index

/-- Lines 160-219: the resolution part of `load_config` — defaults, file
overlay, CLI overrides, `data_directory` fallback, derived paths. -/
def resolve_config (args : Option Args) (fileRes : Except Unit (List (String × PyVal)))
    (xdg : String) : Except PyExc ConfigDict := do
  let d := merge_file args fileRes DEFAULT_CONFIG
  let d2 := apply_cli args d
  let d3 ← fill_data_directory args xdg d2
  derive_paths d3

/-- `load_config` (lines 153-226): resolve, then validate; return the
configuration when `validate_config` returned `True` (an `is True` identity
test), `None` otherwise; an exception raised by resolution or validation
propagates to the caller. -/
def load_config (args : Option Args) (fileRes : Except Unit (List (String × PyVal)))
    (xdg : String) : Except PyExc (Option ConfigDict) := do
  let cfg ← resolve_config args fileRes xdg
  let v ← validate_config (.dict cfg)
  match v with
  | .bool true => pure (some cfg)
  | _ => pure Option.none

/-! ## Concrete configurations and argument vectors used in the theorems -/

/-- A complete, valid `constraints` dictionary (the shape `validate_config`
demands: a known `type`, non-empty `house_types` and `postal_codes`, default
bounds, empty `time_to`). -/
def consValid : PyVal :=
  .dict [("type", .str "RENT"),
         ("house_types", .list [.str "APART"]),
         ("postal_codes", .list [.str "75014"]),
         ("area", .list [.none, .none]),
         ("cost", .list [.none, .none]),
         ("rooms", .list [.none, .none]),
         ("bedrooms", .list [.none, .none]),
         ("time_to", .dict [])]

/-- A full configuration dict that is valid except for the `house_types`
and `area` fields, which are the parameters. -/
def testConfig (hts area : PyVal) : PyVal :=
  .dict [("constraints", .dict
      [("type", .str "RENT"),
       ("house_types", hts),
       ("postal_codes", .list [.str "75014"]),
       ("area", area),
       ("cost", .list [.none, .none]),
       ("rooms", .list [.none, .none]),
       ("bedrooms", .list [.none, .none]),
       ("time_to", .dict [])]),
   ("navitia_api_key", .none),
   ("passes", .int 3),
   ("max_entries", .none),
   ("data_directory", .none),
   ("modules_path", .none),
   ("database", .none),
   ("search_index", .str "/idx"),
   ("port", .int 8080),
   ("host", .str "127.0.0.1"),
   ("webserver", .none),
   ("backends", .none)]

/-- CLI arguments naming only a config file. -/
def argsFileOnly : Args :=
  ⟨some "config.json", Option.none, Option.none, Option.none, Option.none, Option.none⟩

/-- CLI arguments with every option absent. -/
def argsNone : Args :=
  ⟨Option.none, Option.none, Option.none, Option.none, Option.none, Option.none⟩

/-- CLI arguments giving only `--data-dir dd`. -/
def argsDataDir (dd : String) : Args :=
  ⟨Option.none, Option.none, Option.none, Option.none, Option.none, some dd⟩

/-- CLI arguments naming a config file and overriding the port to 9999. -/
def argsPortW : Args :=
  ⟨some "config.json", Option.none, Option.none, some 9999, Option.none, Option.none⟩

/-- What `load_config (some argsFileOnly)` resolves to when the file overlay
sets `constraints` to `consValid` and `appdirs` yields `/x`. -/
def cfgV : ConfigDict :=
  [("constraints", consValid),
   ("navitia_api_key", .none),
   ("passes", .int 3),
   ("max_entries", .none),
   ("data_directory", .str "/x"),
   ("modules_path", .none),
   ("database", .str ("sqlite:///" ++ os_path_join "/x" "flatisfy.db")),
   ("search_index", .str (os_path_join "/x" "search_index")),
   ("port", .int 8080),
   ("host", .str "127.0.0.1"),
   ("webserver", .none),
   ("backends", .none)]

/-- What resolution yields from a file overlay `{"port": 9000}` and a CLI
`--port 9999` (the CLI wins), with `appdirs` yielding `/x`. -/
def cfgPortW : ConfigDict :=
  [("constraints", .dict
      [("type", .none),
       ("house_types", .list []),
       ("postal_codes", .list []),
       ("area", .list [.none, .none]),
       ("cost", .list [.none, .none]),
       ("rooms", .list [.none, .none]),
       ("bedrooms", .list [.none, .none]),
       ("time_to", .dict [])]),
   ("navitia_api_key", .none),
   ("passes", .int 3),
   ("max_entries", .none),
   ("data_directory", .str "/x"),
   ("modules_path", .none),
   ("database", .str ("sqlite:///" ++ os_path_join "/x" "flatisfy.db")),
   ("search_index", .str (os_path_join "/x" "search_index")),
   ("port", .int 9999),
   ("host", .str "127.0.0.1"),
   ("webserver", .none),
   ("backends", .none)]

/-- A dict whose `database` is unset, fed to `derive_paths` directly. -/
def deriveDemoIn : ConfigDict :=
  [("database", .none), ("data_directory", .str "/d"), ("search_index", .str "/s")]

/-- `derive_paths deriveDemoIn`: the database URI has been filled in. -/
def deriveDemoOut : ConfigDict :=
  [("database", .str ("sqlite:///" ++ os_path_join "/d" "flatisfy.db")),
   ("data_directory", .str "/d"), ("search_index", .str "/s")]

/-! ## Supporting lemmas -/

@[simp]
theorem exbind_ok {ε α β : Type} (a : α) (f : α → Except ε β) :
    (Except.ok a >>= f) = f a := rfl

@[simp]
theorem exbind_error {ε α β : Type} (e : ε) (f : α → Except ε β) :
    ((Except.error e : Except ε α) >>= f) = Except.error e := rfl

@[simp]
theorem expure_eq_ok {ε α : Type} (a : α) :
    (pure a : Except ε α) = Except.ok a := rfl

theorem exceptBind_ok_iff {ε α β : Type} {x : Except ε α} {f : α → Except ε β}
    {b : β} : x >>= f = .ok b ↔ ∃ a, x = .ok a ∧ f a = .ok b := by
  cases x with
  | error e => simp
  | ok a => simp

theorem pyAssert_eq_ok {b : Bool} {l : FailLoc} (h : pyAssert b l = .ok ()) :
    b = true := by
  cases b with
  | true => rfl
  | false => exact Except.noConfusion h

theorem subAt_dict_ok {l : FailLoc} {k : String} {d : ConfigDict} {x : PyVal}
    (h : subAt l (.dict d) k = .ok x) : dictLookup d k = some x := by
  simp only [subAt] at h
  split at h
  · rename_i y hd
    rw [hd]; exact congrArg some (Except.ok.inj h)
  · exact Except.noConfusion h

theorem isNone_false_of_not_none {v : PyVal} (h : v ≠ .none) : isNone v = false := by
  cases v <;> first | exact absurd rfl h | rfl

theorem isStr_iff {v : PyVal} : isStr v = true ↔ ∃ s, v = .str s := by
  cases v <;> simp [isStr]

theorem dictLookup_dictSet_self (d : ConfigDict) (k : String) (v : PyVal) :
    dictLookup (dictSet d k v) k = some v := by
  induction d with
  | nil => simp [dictSet, dictLookup]
  | cons p rest ih =>
    obtain ⟨k2, v2⟩ := p
    by_cases h : k2 = k
    · simp [dictSet, h, dictLookup]
    · simp [dictSet, h, dictLookup, ih]

theorem dictLookup_dictSet_ne (d : ConfigDict) {k k2 : String} (v : PyVal)
    (h : k ≠ k2) : dictLookup (dictSet d k2 v) k = dictLookup d k := by
  induction d with
  | nil => simp [dictSet, dictLookup, Ne.symm h]
  | cons p rest ih =>
    obtain ⟨k3, v3⟩ := p
    by_cases h3 : k3 = k2
    · simp [dictSet, h3, dictLookup, Ne.symm h]
    · simp [dictSet, h3, dictLookup, ih]

theorem pyGet_ok {d : ConfigDict} {k : String} {v : PyVal}
    (h : pyGet d k = .ok v) : dictLookup d k = some v := by
  simp only [pyGet] at h
  split at h
  · rename_i y hd
    rw [hd]; exact congrArg some (Except.ok.inj h)
  · exact Except.noConfusion h

theorem asStr_ok {v : PyVal} {s : String} (h : asStr v = .ok s) : v = .str s := by
  cases v <;> first
    | exact Except.noConfusion h
    | exact congrArg PyVal.str (Except.ok.inj h)

theorem runChecks_cons_ok {chk : PyVal → Except VErr Unit}
    {rest : List (PyVal → Except VErr Unit)} {v : PyVal}
    (h : runChecks (chk :: rest) v = .ok ()) :
    chk v = .ok () ∧ runChecks rest v = .ok () := by
  unfold runChecks at h
  cases hc : chk v with
  | ok u => cases u; rw [hc] at h; exact ⟨rfl, h⟩
  | error e => rw [hc] at h; exact Except.noConfusion h

theorem validate_true_inv {c : PyVal} (h : validate_config c = .ok (.bool true)) :
    runChecks checkList c = .ok () := by
  unfold validate_config at h
  cases hr : runChecks checkList c with
  | ok u => cases u; rfl
  | error e =>
    cases e with
    | fail l => rw [hr] at h; exact absurd (Except.ok.inj h) (by simp)
    | uncaught e2 => rw [hr] at h; exact Except.noConfusion h

theorem validate_ok_shape {c v : PyVal} (h : validate_config c = .ok v) :
    v = .bool true ∨ ∃ l : FailLoc, v = .str (FailLoc.text l) := by
  unfold validate_config at h
  cases hr : runChecks checkList c with
  | ok u => rw [hr] at h; exact Or.inl (Except.ok.inj h).symm
  | error e =>
    cases e with
    | fail l => rw [hr] at h; exact Or.inr ⟨l, (Except.ok.inj h).symm⟩
    | uncaught e2 => rw [hr] at h; exact Except.noConfusion h

theorem failLoc_text_truthy : ∀ l : FailLoc, truthy (.str (FailLoc.text l)) = true := by
  intro l; cases l <;> decide

theorem apply_cli_port {a : Args} (d : ConfigDict) {n : Int} (hp : a.port = some n) :
    dictLookup (apply_cli (some a) d) "port" = some (.int n) := by
  obtain ⟨ca, pa, ma, po, ho, da⟩ := a
  have hp2 : po = some n := hp
  subst hp2
  cases ho with
  | none => exact dictLookup_dictSet_self ..
  | some h =>
    exact (dictLookup_dictSet_ne _ _ (by decide)).trans (dictLookup_dictSet_self ..)

theorem fill_xdg_inv {x : String} {d e : ConfigDict} (h : fill_xdg x d = .ok e) :
    (∃ s, e = dictSet d "data_directory" (.str s)) ∨
      ((∃ v, dictLookup d "data_directory" = some v ∧ isNone v = false) ∧ e = d) := by
  unfold fill_xdg at h
  rw [exceptBind_ok_iff] at h
  obtain ⟨v, hv, hif⟩ := h
  split at hif
  · exact Or.inl ⟨x, (Except.ok.inj hif).symm⟩
  · rename_i hn
    refine Or.inr ⟨⟨v, pyGet_ok hv, ?_⟩, (Except.ok.inj hif).symm⟩
    cases hb : isNone v with
    | false => rfl
    | true => exact absurd (hb ▸ rfl) hn

theorem fill_ok_inv {args : Option Args} {x : String} {d e : ConfigDict}
    (h : fill_data_directory args x d = .ok e) :
    (∃ s, e = dictSet d "data_directory" (.str s)) ∨
      ((∃ v, dictLookup d "data_directory" = some v ∧ isNone v = false) ∧ e = d) := by
  cases args with
  | none => exact fill_xdg_inv h
  | some a =>
    obtain ⟨ca, pa, ma, po, ho, da⟩ := a
    cases da with
    | some dd => exact Or.inl ⟨dd, (Except.ok.inj h).symm⟩
    | none => exact fill_xdg_inv h

theorem derive_database_inv {d e : ConfigDict} (h : derive_database d = .ok e) :
    (dictLookup d "database" = some .none ∧
        ∃ s, dictLookup d "data_directory" = some (.str s) ∧
          e = dictSet d "database"
            (.str ("sqlite:///" ++ os_path_join s "flatisfy.db"))) ∨
      ((∃ v, dictLookup d "database" = some v ∧ isNone v = false) ∧ e = d) := by
  unfold derive_database at h
  rw [exceptBind_ok_iff] at h
  obtain ⟨db, hdb, h⟩ := h
  split at h
  · rename_i hn
    rw [exceptBind_ok_iff] at h
    obtain ⟨dd, hdd, h⟩ := h
    rw [exceptBind_ok_iff] at h
    obtain ⟨s, hs, h⟩ := h
    refine Or.inl ⟨?_, s, ?_, (Except.ok.inj h).symm⟩
    · have hdbn : db = .none := by cases db <;> simp [isNone] at hn ⊢
      exact hdbn ▸ pyGet_ok hdb
    · exact (asStr_ok hs) ▸ pyGet_ok hdd
  · rename_i hn
    refine Or.inr ⟨⟨db, pyGet_ok hdb, ?_⟩, (Except.ok.inj h).symm⟩
    cases hb : isNone db with
    | false => rfl
    | true => exact absurd (hb ▸ rfl) hn

theorem derive_search_index_inv {d e : ConfigDict}
    (h : derive_search_index d = .ok e) :
    (∃ s, e = dictSet d "search_index" (.str (os_path_join s "search_index"))) ∨
      ((∃ v, dictLookup d "search_index" = some v ∧ isNone v = false) ∧ e = d) := by
  unfold derive_search_index at h
  rw [exceptBind_ok_iff] at h
  obtain ⟨si, hsi, h⟩ := h
  split at h
  · rw [exceptBind_ok_iff] at h
    obtain ⟨dd, hdd, h⟩ := h
    rw [exceptBind_ok_iff] at h
    obtain ⟨s, hs, h⟩ := h
    exact Or.inl ⟨s, (Except.ok.inj h).symm⟩
  · rename_i hn
    refine Or.inr ⟨⟨si, pyGet_ok hsi, ?_⟩, (Except.ok.inj h).symm⟩
    cases hb : isNone si with
    | false => rfl
    | true => exact absurd (hb ▸ rfl) hn

theorem derive_ok_stages {d c : ConfigDict} (h : derive_paths d = .ok c) :
    ∃ d2, derive_database d = .ok d2 ∧ derive_search_index d2 = .ok c := by
  unfold derive_paths at h
  rw [exceptBind_ok_iff] at h
  exact h

theorem fill_preserves {args : Option Args} {x : String} {d e : ConfigDict}
    (h : fill_data_directory args x d = .ok e) (k : String)
    (hk : k ≠ "data_directory") : dictLookup e k = dictLookup d k := by
  rcases fill_ok_inv h with ⟨s, rfl⟩ | ⟨-, rfl⟩
  · exact dictLookup_dictSet_ne _ _ hk
  · rfl

theorem derive_preserves {d c : ConfigDict} (h : derive_paths d = .ok c)
    (k : String) (h1 : k ≠ "database") (h2 : k ≠ "search_index") :
    dictLookup c k = dictLookup d k := by
  obtain ⟨d2, hfst, hsnd⟩ := derive_ok_stages h
  have step1 : dictLookup d2 k = dictLookup d k := by
    rcases derive_database_inv hfst with ⟨-, s, -, rfl⟩ | ⟨-, rfl⟩
    · exact dictLookup_dictSet_ne _ _ h1
    · rfl
  rcases derive_search_index_inv hsnd with ⟨s, rfl⟩ | ⟨-, rfl⟩
  · rw [dictLookup_dictSet_ne _ _ h2]; exact step1
  · exact step1

theorem fill_data_directory_not_none {args : Option Args} {x : String}
    {d e : ConfigDict} (h : fill_data_directory args x d = .ok e) :
    ∃ v, dictLookup e "data_directory" = some v ∧ isNone v = false := by
  rcases fill_ok_inv h with ⟨s, rfl⟩ | ⟨⟨v, hv, hn⟩, rfl⟩
  · exact ⟨.str s, dictLookup_dictSet_self .., rfl⟩
  · exact ⟨v, hv, hn⟩

theorem derive_database_not_none {d c : ConfigDict} (h : derive_paths d = .ok c) :
    ∃ v, dictLookup c "database" = some v ∧ isNone v = false := by
  obtain ⟨d2, hfst, hsnd⟩ := derive_ok_stages h
  have step1 : ∃ v, dictLookup d2 "database" = some v ∧ isNone v = false := by
    rcases derive_database_inv hfst with ⟨-, s, -, rfl⟩ | ⟨⟨v, hv, hn⟩, rfl⟩
    · exact ⟨_, dictLookup_dictSet_self .., rfl⟩
    · exact ⟨v, hv, hn⟩
  rcases derive_search_index_inv hsnd with ⟨s, rfl⟩ | ⟨-, rfl⟩
  · obtain ⟨v, hv, hn⟩ := step1
    exact ⟨v, by rw [dictLookup_dictSet_ne _ _ (by decide)]; exact hv, hn⟩
  · exact step1

theorem resolve_ok_inv {args : Option Args}
    {f : Except Unit (List (String × PyVal))} {x : String} {c : ConfigDict}
    (h : resolve_config args f x = .ok c) :
    ∃ d3, fill_data_directory args x
        (apply_cli args (merge_file args f DEFAULT_CONFIG)) = .ok d3 ∧
      derive_paths d3 = .ok c := by
  unfold resolve_config at h
  rw [exceptBind_ok_iff] at h
  exact h

theorem load_ok_some_inv {args : Option Args}
    {f : Except Unit (List (String × PyVal))} {x : String} {c : ConfigDict}
    (h : load_config args f x = .ok (some c)) :
    resolve_config args f x = .ok c ∧
      validate_config (.dict c) = .ok (.bool true) := by
  unfold load_config at h
  rw [exceptBind_ok_iff] at h
  obtain ⟨cfg, hc, h⟩ := h
  rw [exceptBind_ok_iff] at h
  obtain ⟨v, hv, h⟩ := h
  split at h
  · exact ⟨(Option.some.inj (Except.ok.inj h)) ▸ hc,
      (Option.some.inj (Except.ok.inj h)) ▸ hv⟩
  · exact absurd (Except.ok.inj h) (by simp)

theorem load_ok_none_inv {args : Option Args}
    {f : Except Unit (List (String × PyVal))} {x : String}
    (h : load_config args f x = .ok Option.none) :
    ∃ cfg l, resolve_config args f x = .ok cfg ∧
      validate_config (.dict cfg) = .ok (.str (FailLoc.text l)) := by
  unfold load_config at h
  rw [exceptBind_ok_iff] at h
  obtain ⟨cfg, hc, h⟩ := h
  rw [exceptBind_ok_iff] at h
  obtain ⟨v, hv, h⟩ := h
  refine ⟨cfg, ?_⟩
  split at h
  · exact absurd (Except.ok.inj h) (by simp)
  · rename_i hne
    rcases validate_ok_shape hv with rfl | ⟨l, rfl⟩
    · exact (hne rfl).elim
    · exact ⟨l, hc, hv⟩

theorem chkDataDirectory_ok {d : ConfigDict}
    (h : chkDataDirectory (.dict d) = .ok ()) :
    ∃ v, dictLookup d "data_directory" = some v ∧ (isNone v || isStr v) = true := by
  unfold chkDataDirectory at h
  rw [exceptBind_ok_iff] at h
  obtain ⟨v, hv, ha⟩ := h
  exact ⟨v, subAt_dict_ok hv, pyAssert_eq_ok ha⟩

theorem chkSearchIndex_ok {d : ConfigDict}
    (h : chkSearchIndex (.dict d) = .ok ()) :
    ∃ v, dictLookup d "search_index" = some v ∧ isStr v = true := by
  unfold chkSearchIndex at h
  rw [exceptBind_ok_iff] at h
  obtain ⟨v, hv, ha⟩ := h
  exact ⟨v, subAt_dict_ok hv, pyAssert_eq_ok ha⟩

theorem chkDatabase_ok {d : ConfigDict}
    (h : chkDatabase (.dict d) = .ok ()) :
    ∃ v, dictLookup d "database" = some v ∧ (isNone v || isStr v) = true := by
  unfold chkDatabase at h
  rw [exceptBind_ok_iff] at h
  obtain ⟨v, hv, ha⟩ := h
  exact ⟨v, subAt_dict_ok hv, pyAssert_eq_ok ha⟩

theorem checks_pass_of_validate_true {c : PyVal}
    (h : validate_config c = .ok (.bool true)) :
    chkDataDirectory c = .ok () ∧ chkSearchIndex c = .ok () ∧
      chkDatabase c = .ok () := by
  have hr := validate_true_inv h
  unfold checkList at hr
  obtain ⟨-, hr⟩ := runChecks_cons_ok hr
  obtain ⟨-, hr⟩ := runChecks_cons_ok hr
  obtain ⟨-, hr⟩ := runChecks_cons_ok hr
  obtain ⟨-, hr⟩ := runChecks_cons_ok hr
  obtain ⟨-, hr⟩ := runChecks_cons_ok hr
  obtain ⟨-, hr⟩ := runChecks_cons_ok hr
  obtain ⟨-, hr⟩ := runChecks_cons_ok hr
  obtain ⟨-, hr⟩ := runChecks_cons_ok hr
  obtain ⟨-, hr⟩ := runChecks_cons_ok hr
  obtain ⟨-, hr⟩ := runChecks_cons_ok hr
  obtain ⟨h1, hr⟩ := runChecks_cons_ok hr
  obtain ⟨h2, hr⟩ := runChecks_cons_ok hr
  obtain ⟨-, hr⟩ := runChecks_cons_ok hr
  obtain ⟨h3, -⟩ := runChecks_cons_ok hr
  exact ⟨h1, h2, h3⟩

theorem load_returns_strings {args : Option Args}
    {f : Except Unit (List (String × PyVal))} {x : String} {c : ConfigDict}
    (h : load_config args f x = .ok (some c)) :
    (∃ s, dictLookup c "data_directory" = some (.str s)) ∧
      (∃ s, dictLookup c "database" = some (.str s)) ∧
      (∃ s, dictLookup c "search_index" = some (.str s)) := by
  obtain ⟨hres, hval⟩ := load_ok_some_inv h
  obtain ⟨d3, hfill, hder⟩ := resolve_ok_inv hres
  obtain ⟨hdd, hsi, hdb⟩ := checks_pass_of_validate_true hval
  refine ⟨?_, ?_, ?_⟩
  · obtain ⟨w, hw, hok⟩ := chkDataDirectory_ok hdd
    obtain ⟨v, hv, hn⟩ := fill_data_directory_not_none hfill
    have hv2 : dictLookup c "data_directory" = some v :=
      (derive_preserves hder "data_directory" (by decide) (by decide)).trans hv
    obtain rfl : w = v := by rw [hw] at hv2; exact Option.some.inj hv2
    rw [hn, Bool.false_or] at hok
    obtain ⟨s, rfl⟩ := isStr_iff.mp hok
    exact ⟨s, hw⟩
  · obtain ⟨w, hw, hok⟩ := chkDatabase_ok hdb
    obtain ⟨v, hv, hn⟩ := derive_database_not_none hder
    obtain rfl : w = v := by rw [hw] at hv; exact Option.some.inj hv
    rw [hn, Bool.false_or] at hok
    obtain ⟨s, rfl⟩ := isStr_iff.mp hok
    exact ⟨s, hw⟩
  · obtain ⟨w, hw, hok⟩ := chkSearchIndex_ok hsi
    obtain ⟨s, rfl⟩ := isStr_iff.mp hok
    exact ⟨s, hw⟩

theorem bounds_pair_eval (a b : PyVal) :
    _check_constraints_bounds (.list [a, b]) =
      if noneOrNonNegNum a && noneOrNonNegNum b then
        (if !isNone a && !isNone b then
          (if pyGt b a then .ok () else .error (.fail .line89))
        else .ok ())
      else .error (.fail .line80) := by
  cases hna : noneOrNonNegNum a <;> cases hnb : noneOrNonNegNum b <;>
    cases ha : isNone a <;> cases hb : isNone b <;> cases hg : pyGt b a <;>
      simp [_check_constraints_bounds, lenAt, iterAt, indexAt, pyAssert,
        hna, hnb, ha, hb, hg]

/-! ## Claims -/

/-- C1 (counterexample): `DEFAULT_CONFIG` passed unmodified to
`validate_config` does NOT return `True` — the claim that the baseline
validates is false. -/
theorem claim_C1_counterexample :
    validate_config (.dict DEFAULT_CONFIG) ≠ .ok (.bool true) := by
  intro h
  rw [show validate_config (.dict DEFAULT_CONFIG)
      = .ok (.str (FailLoc.text .line98)) from rfl] at h
  exact PyVal.noConfusion (Except.ok.inj h)

/-- C1 (amended): `validate_config` on `DEFAULT_CONFIG` returns the failure
location of line 98 (`constraints["type"]` is `None`, not a string), so the
baseline configuration is invalid as far as `validate_config` is
concerned. -/
theorem claim_C1 :
    validate_config (.dict DEFAULT_CONFIG) = .ok (.str (FailLoc.text .line98)) := rfl

/-- C2 (counterexample): an input whose `constraints` value is not a
mapping makes `validate_config` raise an uncaught `TypeError` (the
`except` clause only catches `AssertionError` and `KeyError`), so
`validate_config` does not always return `Success` or a
`FailureLocation`. -/
theorem claim_C2_counterexample :
    validate_config (.dict [("constraints", .int 42)]) = .error .typeError := rfl

/-- C2 (amended): `validate_config` converts failed assertions and missing
keys into a failure-location result — when it returns, the result is `True`
or a failure-location string, and a missing key (such as in the empty dict)
yields a failure location, not an exception — but on wrong types where a
mapping, string or iterable was expected it can raise an uncaught
exception. -/
theorem claim_C2 :
    (∀ c : PyVal, validate_config c = .ok (.bool true) ∨
      (∃ l : FailLoc, validate_config c = .ok (.str (FailLoc.text l))) ∨
      (∃ e : PyExc, validate_config c = .error e)) ∧
    validate_config (.dict []) = .ok (.str (FailLoc.text .line97)) := by
  refine ⟨fun c => ?_, rfl⟩
  cases hr : runChecks checkList c with
  | ok u =>
    cases u
    exact Or.inl (by unfold validate_config; rw [hr])
  | error e =>
    cases e with
    | fail l => exact Or.inr (Or.inl ⟨l, by unfold validate_config; rw [hr]⟩)
    | uncaught e2 => exact Or.inr (Or.inr ⟨e2, by unfold validate_config; rw [hr]⟩)

/-- C3: layer precedence for `port` — a CLI `--port 9999` wins over any
file overlay; with no CLI port a file overlay `{"port": 9000}` gives 9000;
with neither, the baseline 8080 remains. -/
theorem claim_C3 :
    (∀ (a : Args) (f : Except Unit (List (String × PyVal))) (x : String)
        (cfg : ConfigDict), a.port = some 9999 →
        resolve_config (some a) f x = .ok cfg →
        dictLookup cfg "port" = some (.int 9999)) ∧
    (∃ cfg, resolve_config (some argsFileOnly) (.ok [("port", .int 9000)]) "/x"
        = .ok cfg ∧ dictLookup cfg "port" = some (.int 9000)) ∧
    (∃ cfg, resolve_config (some argsNone) (.error ()) "/x" = .ok cfg ∧
        dictLookup cfg "port" = some (.int 8080)) := by
  refine ⟨?_, ⟨_, rfl, rfl⟩, ⟨_, rfl, rfl⟩⟩
  intro a f x cfg hp hr
  obtain ⟨d3, hfill, hder⟩ := resolve_ok_inv hr
  have h1 := apply_cli_port (merge_file (some a) f DEFAULT_CONFIG) hp
  have h2 := fill_preserves hfill "port" (by decide)
  have h3 := derive_preserves hder "port" (by decide) (by decide)
  rw [h3, h2, h1]

/-- C3 (witness): with a CLI port 9999 and a file overlay setting port
9000, the resolved configuration's port is 9999. -/
theorem claim_C3_witness : dictLookup cfgPortW "port" = some (.int 9999) :=
  claim_C3.1 argsPortW (.ok [("port", .int 9000)]) "/x" cfgPortW rfl rfl

/-- C4: derivation of `database` and `search_index` — when `data_directory`
is set (by CLI or by the file overlay) and the two fields are unset, they
are derived under `data_directory` (`.../flatisfy.db` with the `sqlite:///`
scheme, and `.../search_index`); when both are explicitly set by the file
overlay they are returned unchanged; and the derived values end in
`flatisfy.db` and `search_index` respectively. -/
theorem claim_C4 :
    (∀ dd : String, ∃ cfg,
      resolve_config (some (argsDataDir dd)) (.error ()) "/x" = .ok cfg ∧
      dictLookup cfg "database"
        = some (.str ("sqlite:///" ++ os_path_join dd "flatisfy.db")) ∧
      dictLookup cfg "search_index"
        = some (.str (os_path_join dd "search_index"))) ∧
    (∀ dd : String, ∃ cfg,
      resolve_config (some argsFileOnly) (.ok [("data_directory", .str dd)]) "/x"
        = .ok cfg ∧
      dictLookup cfg "database"
        = some (.str ("sqlite:///" ++ os_path_join dd "flatisfy.db")) ∧
      dictLookup cfg "search_index"
        = some (.str (os_path_join dd "search_index"))) ∧
    (∀ dd db si : String, ∃ cfg,
      resolve_config (some argsFileOnly)
          (.ok [("data_directory", .str dd), ("database", .str db),
                ("search_index", .str si)]) "/x" = .ok cfg ∧
      dictLookup cfg "database" = some (.str db) ∧
      dictLookup cfg "search_index" = some (.str si)) ∧
    strEndsWith ("sqlite:///" ++ os_path_join "/data" "flatisfy.db")
      "flatisfy.db" = true ∧
    strEndsWith (os_path_join "/data" "search_index") "search_index" = true := by
  refine ⟨fun dd => ⟨_, rfl, rfl, rfl⟩, fun dd => ⟨_, rfl, rfl, rfl⟩,
    fun dd db si => ⟨_, rfl, rfl, rfl⟩, by decide, by decide⟩

/-- C5: the bound sub-check — any sequence of length other than 2 fails at
the length assert; for a two-element sequence, success holds exactly when
each element is absent or a non-negative number and, when both are present,
the second is strictly greater than the first; `(5, 2)` fails, `(2, 5)`
succeeds, `(None, None)` succeeds, `(-1, None)` fails; and a configuration
whose `area` bound field is `(5, 2)` fails validation while `(2, 5)`
passes. -/
theorem claim_C5 :
    (∀ xs : List PyVal, xs.length ≠ 2 →
      _check_constraints_bounds (.list xs) = .error (.fail .line79)) ∧
    (∀ a b : PyVal, _check_constraints_bounds (.list [a, b]) = .ok () ↔
      (noneOrNonNegNum a = true ∧ noneOrNonNegNum b = true ∧
        (isNone a = false → isNone b = false → pyGt b a = true))) ∧
    _check_constraints_bounds (.list [.int 5, .int 2]) = .error (.fail .line89) ∧
    _check_constraints_bounds (.list [.int 2, .int 5]) = .ok () ∧
    _check_constraints_bounds (.list [.none, .none]) = .ok () ∧
    _check_constraints_bounds (.list [.int (-1), .none]) = .error (.fail .line80) ∧
    validate_config (testConfig (.list [.str "APART"]) (.list [.int 5, .int 2]))
      = .ok (.str (FailLoc.text .line89)) ∧
    validate_config (testConfig (.list [.str "APART"]) (.list [.int 2, .int 5]))
      = .ok (.bool true) := by
  refine ⟨?_, ?_, rfl, rfl, rfl, rfl, rfl, rfl⟩
  · intro xs hlen
    simp [_check_constraints_bounds, lenAt, pyAssert, hlen]
  · intro a b
    rw [bounds_pair_eval]
    cases hna : noneOrNonNegNum a <;> cases hnb : noneOrNonNegNum b <;>
      cases ha : isNone a <;> cases hb : isNone b <;> cases hg : pyGt b a <;>
        simp [hna, hnb, ha, hb, hg]

/-- C5 (witness): the empty sequence has length 0 and fails the bound
sub-check at the length assert. -/
theorem claim_C5_witness :
    _check_constraints_bounds (.list []) = .error (.fail .line79) :=
  claim_C5.1 [] (by decide)

/-- C6: the `house_types` enum check upper-cases before comparing —
`["apart"]` and `["APART"]` both validate, `["castle"]` fails at the
house-type enum assert. -/
theorem claim_C6 :
    validate_config (testConfig (.list [.str "apart"]) (.list [.none, .none]))
      = .ok (.bool true) ∧
    validate_config (testConfig (.list [.str "APART"]) (.list [.none, .none]))
      = .ok (.bool true) ∧
    validate_config (testConfig (.list [.str "castle"]) (.list [.none, .none]))
      = .ok (.str (FailLoc.text .line105)) :=
  ⟨rfl, rfl, rfl⟩

/-- C7: a config file that cannot be read or parsed (an `IOError` or
`ValueError` from `open`/`json.load`) makes `load_config` behave exactly as
if no config file had been named at all: the result is the same for every
CLI argument vector, so the bad file is neither fatal nor reflected in the
result. -/
theorem claim_C7 :
    ∀ (a : Args) (f2 : Except Unit (List (String × PyVal))) (x : String),
      load_config (some a) (.error ()) x =
        load_config (some { a with config := Option.none }) f2 x := by
  intro a f2 x
  obtain ⟨ca, pa, ma, po, ho, da⟩ := a
  have hm : merge_file (some ⟨ca, pa, ma, po, ho, da⟩) (.error ())
      DEFAULT_CONFIG = DEFAULT_CONFIG := by
    cases ca with
    | none => rfl
    | some p =>
      show (if p == "" then DEFAULT_CONFIG
        else match (Except.error () : Except Unit (List (String × PyVal))) with
          | .ok ov => dictUpdate DEFAULT_CONFIG ov
          | .error _ => DEFAULT_CONFIG) = DEFAULT_CONFIG
      split <;> rfl
  unfold load_config resolve_config
  rw [hm]
  rfl

/-- C7 (witness): with a malformed file and no CLI options, `load_config`
equals the run with no config file. -/
theorem claim_C7_witness :
    load_config (some argsFileOnly) (.error ()) "/x" =
      load_config (some { argsFileOnly with config := Option.none })
        (.ok []) "/x" :=
  claim_C7 argsFileOnly (.ok []) "/x"

/-- C8 (counterexample): a file overlay assigning a non-mapping to
`constraints` makes `load_config` raise an uncaught `TypeError` from
`validate_config`, so `load_config` does not return on every pair of file
and CLI overlays. -/
theorem claim_C8_counterexample :
    load_config (some argsFileOnly) (.ok [("constraints", .int 5)]) "/x"
      = .error .typeError := rfl

/-- C8 (amended): when `load_config` returns, a non-absent result is the
resolved configuration and means validation returned `True`, and an absent
result (`None`) means validation returned a failure location; but a
wrong-typed overlay value can make resolution or validation raise, and the
exception propagates to the caller. -/
theorem claim_C8 :
    (∀ (args : Option Args) (f : Except Unit (List (String × PyVal)))
        (x : String) (c : ConfigDict), load_config args f x = .ok (some c) →
      resolve_config args f x = .ok c ∧
        validate_config (.dict c) = .ok (.bool true)) ∧
    (∀ (args : Option Args) (f : Except Unit (List (String × PyVal)))
        (x : String), load_config args f x = .ok Option.none →
      ∃ cfg l, resolve_config args f x = .ok cfg ∧
        validate_config (.dict cfg) = .ok (.str (FailLoc.text l))) ∧
    load_config (some argsFileOnly) (.ok [("constraints", .int 5)]) "/x"
      = .error .typeError := by
  refine ⟨?_, ?_, rfl⟩
  · intro args f x c h
    exact load_ok_some_inv h
  · intro args f x h
    exact load_ok_none_inv h

/-- C8 (witness): a valid overlay yields the resolved configuration with
validation `True`; the default overlay (invalid constraints) yields `None`
with a failure location. -/
theorem claim_C8_witness :
    (resolve_config (some argsFileOnly) (.ok [("constraints", consValid)]) "/x"
        = .ok cfgV ∧
      validate_config (.dict cfgV) = .ok (.bool true)) ∧
    (∃ cfg l, resolve_config (some argsNone) (.ok []) "/x" = .ok cfg ∧
      validate_config (.dict cfg) = .ok (.str (FailLoc.text l))) :=
  ⟨claim_C8.1 (some argsFileOnly) (.ok [("constraints", consValid)]) "/x"
      cfgV rfl,
   claim_C8.2.1 (some argsNone) (.ok []) "/x" rfl⟩

/-- C9: `validate_config` never returns the boolean `False` — every
returned value is the identity `True` or a non-empty (hence truthy) failure
string, so success is only distinguishable with an `is True` test. -/
theorem claim_C9 : ∀ (c v : PyVal), validate_config c = .ok v →
    v ≠ .bool false ∧
      (v = .bool true ∨ ∃ s, v = .str s ∧ truthy v = true) := by
  intro c v h
  rcases validate_ok_shape h with rfl | ⟨l, rfl⟩
  · exact ⟨fun hh => Bool.noConfusion (PyVal.bool.inj hh), Or.inl rfl⟩
  · exact ⟨fun hh => PyVal.noConfusion hh,
      Or.inr ⟨_, rfl, failLoc_text_truthy l⟩⟩

/-- C9 (witness): on `DEFAULT_CONFIG` the returned value is the (truthy,
non-`False`) failure string of line 98. -/
theorem claim_C9_witness :
    PyVal.str (FailLoc.text .line98) ≠ PyVal.bool false ∧
      (PyVal.str (FailLoc.text .line98) = PyVal.bool true ∨
        ∃ s, PyVal.str (FailLoc.text .line98) = PyVal.str s ∧
          truthy (PyVal.str (FailLoc.text .line98)) = true) :=
  claim_C9 (.dict DEFAULT_CONFIG) (.str (FailLoc.text .line98)) rfl

/-- C10 (counterexample): a file overlay that explicitly sets `database`
to a non-SQLite string is returned unchanged by a successful `load_config`,
so the returned `database` need not begin with `sqlite:///`. -/
theorem claim_C10_counterexample :
    ∃ c, load_config (some argsFileOnly)
        (.ok [("constraints", consValid), ("database", .str "mysql://flat")])
        "/x" = .ok (some c) ∧
      dictLookup c "database" = some (.str "mysql://flat") ∧
      strStartsWith "mysql://flat" "sqlite:///" = false :=
  ⟨_, rfl, rfl, by decide⟩

/-- C10 (amended): whenever `load_config` returns a configuration, its
`data_directory`, `database` and `search_index` are all non-absent strings;
and whenever `database` was still absent when `derive_paths` ran, the
returned `database` is `"sqlite:///" + os.path.join(data_directory,
"flatisfy.db")` (so it begins with `sqlite:///`); an explicitly set
`database` is returned unchanged. -/
theorem claim_C10 :
    (∀ (args : Option Args) (f : Except Unit (List (String × PyVal)))
        (x : String) (c : ConfigDict), load_config args f x = .ok (some c) →
      (∃ s, dictLookup c "data_directory" = some (.str s)) ∧
        (∃ s, dictLookup c "database" = some (.str s)) ∧
        (∃ s, dictLookup c "search_index" = some (.str s))) ∧
    (∀ d c : ConfigDict, derive_paths d = .ok c →
      dictLookup d "database" = some .none →
      ∃ s, dictLookup d "data_directory" = some (.str s) ∧
        dictLookup c "database" =
          some (.str ("sqlite:///" ++ os_path_join s "flatisfy.db"))) := by
  constructor
  · intro args f x c h
    exact load_returns_strings h
  · intro d c h hnone
    obtain ⟨d2, hfst, hsnd⟩ := derive_ok_stages h
    rcases derive_database_inv hfst with ⟨-, s, hs, rfl⟩ | ⟨⟨v, hv, hn⟩, rfl⟩
    · refine ⟨s, hs, ?_⟩
      rcases derive_search_index_inv hsnd with ⟨s2, rfl⟩ | ⟨-, rfl⟩
      · rw [dictLookup_dictSet_ne _ _ (by decide)]
        exact dictLookup_dictSet_self ..
      · exact dictLookup_dictSet_self ..
    · rw [hnone] at hv
      obtain rfl := Option.some.inj hv
      exact Bool.noConfusion hn

/-- C10 (witness): the valid-overlay run returns string paths, and
`derive_paths` on a dict with an absent `database` fills in the SQLite
URI. -/
theorem claim_C10_witness :
    ((∃ s, dictLookup cfgV "data_directory" = some (.str s)) ∧
      (∃ s, dictLookup cfgV "database" = some (.str s)) ∧
      (∃ s, dictLookup cfgV "search_index" = some (.str s))) ∧
    (∃ s, dictLookup deriveDemoIn "data_directory" = some (.str s) ∧
      dictLookup deriveDemoOut "database" =
        some (.str ("sqlite:///" ++ os_path_join s "flatisfy.db"))) :=
  ⟨claim_C10.1 (some argsFileOnly) (.ok [("constraints", consValid)]) "/x"
      cfgV rfl,
   claim_C10.2 deriveDemoIn deriveDemoOut rfl rfl⟩

end Flatisfy
